import Mathlib

/-!
Verification of the Sibilant clipboard-translation tool.

The development shallowly embeds the TypeScript sources
(`src/translate-buffer.ts` and the concatenated main script): every
external collaborator (fetch, the OpenAI chat client, `execAsync`
subprocess calls, the clipboard, the filesystem) is modelled by an
oracle in an `Env` record, and each embedded function returns its
result together with the list of external effects it performed, in
order.  Machine behaviour such as JavaScript string truthiness,
`String.prototype.replace` replacing only the first occurrence, and
`promisify(exec)` rejecting on a non-zero exit status is reproduced
explicitly.
-/

deriving instance DecidableEq for Except

namespace Sibilant

/-- JavaScript whitespace characters recognised by `String.prototype.trim`
(the ASCII ones plus NBSP and the BOM). -/
def isJsWs (c : Char) : Bool :=
  c = ' ' || c = '\t' || c = '\n' || c = '\r' ||
  c = '\x0b' || c = '\x0c' || c = ' ' || c = '﻿'

/-- Embedding of JavaScript `s.trim()`: drop leading and trailing whitespace. -/
def jsTrim (s : String) : String :=
  String.mk (((s.toList.dropWhile isJsWs).reverse.dropWhile isJsWs).reverse)

/-- ECMA-262 GetSubstitution for a string-pattern `String.prototype.replace`
call: the replacement template is scanned left to right; a doubled dollar
yields one dollar, dollar-ampersand yields the matched substring,
dollar-backquote (`\x60`) the portion of the subject before the match, and
dollar-quote (`\x27`) the portion after it.  A string search has no capture
groups and no named captures, so every other dollar sequence (digits,
angle-bracket names, a lone trailing dollar) is left literal — which is
what emitting the dollar and rescanning from the next character produces. -/
def getSubstitution (matched before after : List Char) : List Char → List Char
  | [] => []
  | '$' :: c :: rest =>
    if c = '$' then '$' :: getSubstitution matched before after rest
    else if c = '&' then matched ++ getSubstitution matched before after rest
    else if c = '\x60' then before ++ getSubstitution matched before after rest
    else if c = '\x27' then after ++ getSubstitution matched before after rest
    else '$' :: getSubstitution matched before after (c :: rest)
  | c :: rest => c :: getSubstitution matched before after rest

/-- Embedding of JavaScript `s.replace(pat, rep)` with a string pattern
(list form): only the first occurrence is replaced, and the replacement
string is processed through `getSubstitution` with the matched substring,
the prefix of the subject before the match (accumulated reversed in
`before`) and the suffix after it.  When the pattern does not occur the
subject is returned unchanged and the replacement is never processed. -/
def replaceFirstList (pat rep : List Char) : List Char → List Char → List Char
  | before, [] =>
    if pat = [] then getSubstitution pat before.reverse [] rep else []
  | before, c :: rest =>
    if pat.isPrefixOf (c :: rest) then
      getSubstitution pat before.reverse ((c :: rest).drop pat.length) rep
        ++ (c :: rest).drop pat.length
    else c :: replaceFirstList pat rep (c :: before) rest

/-- Embedding of JavaScript `s.replace(pat, rep)` with a string pattern:
only the first occurrence is replaced, with ECMA-262 dollar-pattern
processing of the replacement string. -/
def replaceFirst (s pat rep : String) : String :=
  String.mk (replaceFirstList pat.toList rep.toList [] s.toList)

/-- Embedding of `message.replace(/"/g, "\x5c\x22")` in `showNotification`:
every double quote is backslash-escaped. -/
def escapeQuotes (s : String) : String :=
  String.mk (s.toList.flatMap fun c => if c = '"' then ['\\', '"'] else [c])

/-- `ProviderConfig` (union of the fields the index-signature interface
carries in the sources). `apiKey` is optional; an absent or empty key is
falsy in JavaScript. -/
structure ProviderConfig where
  typeName : String := ""
  title : String := ""
  apiKey : Option String := none
  model : String := ""
  baseUrl : String := ""
  command : String := ""
  args : List String := []
deriving DecidableEq, Repr

/-- `TranslationConfig`: the active provider identifier and target language. -/
structure TranslationConfig where
  provider : String
  targetLanguage : String
deriving DecidableEq, Repr

/-- `AppConfig`: providers mapping (association list, mirroring the JSON
object) plus the translation selection. -/
structure AppConfig where
  providers : List (String × ProviderConfig)
  translation : TranslationConfig
deriving DecidableEq, Repr

/-- A constructed provider, as returned by `createTranslationProvider`
in the main script (which knows the `open-ai` and `libre-translate` cases). -/
inductive Provider where
  | openai (cfg : ProviderConfig)
  | libre (cfg : ProviderConfig)
deriving DecidableEq, Repr

/-- The config held by a constructed provider. -/
def Provider.cfgOf : Provider → ProviderConfig
  | .openai c => c
  | .libre c => c

/-- The exact subprocess command lines the program hands to `execAsync`,
one constructor per call site. -/
inductive Cmd where
  | afplay (sound : String)
  | pngpaste (path : String)
  | writeDialogScript (file : String)
  | osascript (file message title : String)
  | rmFile (file : String)
  | shell (line : String)
deriving DecidableEq, Repr

/-- One external effect performed by the program, in program order.
`run c ok` records an `execAsync` invocation together with whether the
subprocess succeeded (needed to reconstruct filesystem state). -/
inductive Eff where
  | fetchGet (url : String) (timeoutMs : Option Nat)
  | fetchPost (url : String) (auth : Bool) (q source target format : String) (timeoutMs : Option Nat)
  | chatText (model : String) (content : String)
  | chatImage (model : String) (imageUrl : String) (targetLanguage : String)
  | clipRead
  | clipWrite (s : String)
  | clipGetImage
  | run (c : Cmd) (ok : Bool)
  | fsExists (p : String) (found : Bool)
  | fsRead (p : String) (ok : Bool)
  | fsUnlink (p : String) (ok : Bool)
  | warnCliStderr (title stderr : String)
  | alfredLog (shouldCopy : Bool)
deriving DecidableEq, Repr

/-- The errors the program can raise, one constructor per `throw` site
(plus the JavaScript runtime errors that can propagate: rejected
promises from collaborators and property access on `undefined`).
`translationFailed inner` is the wrapper thrown by the catch blocks of
`LibreTranslateProvider.translate` and `LocalTranslationProvider.translate`,
which prepend the text `Translation failed: ` to the inner message. -/
inductive Err where
  | providerNotFound (id : String)
  | unsupportedProvider (id : String)
  | capabilityUnsupported
  | serviceUnavailable
  | apiError (statusText : String) (errField : Option String)
  | noTranslation
  | jsonReject
  | parseFailed
  | chatReject (msg : String)
  | fetchReject (msg : String)
  | noImageInClipboard
  | unsupportedContent
  | clipReadErr (msg : String)
  | clipWriteErr (msg : String)
  | execErr (c : Cmd) (msg : String)
  | typeErrorUndefined (field : String)
  | translationFailed (inner : Err)
deriving DecidableEq, Repr

/-- The `message` of each error, as the JavaScript `Error` objects carry it
(`\x27` is an apostrophe). -/
def Err.message : Err → String
  | .providerNotFound id => "Provider \x27" ++ id ++ "\x27 not found"
  | .unsupportedProvider id => "Unsupported provider: " ++ id
  | .capabilityUnsupported => "Image translation is only supported with OpenAI provider"
  | .serviceUnavailable => "Service is not available. Please make sure the service is running on port 9012."
  | .apiError st ef =>
      "API error: " ++ st ++ (match ef with | some e => " - " ++ e | none => "")
  | .noTranslation => "No translation found in the response"
  | .jsonReject => "Unexpected end of JSON input"
  | .parseFailed => "Failed to parse translation result"
  | .chatReject m => m
  | .fetchReject m => m
  | .noImageInClipboard => "No image found in clipboard"
  | .unsupportedContent => "Unsupported clipboard content type"
  | .clipReadErr m => m
  | .clipWriteErr m => m
  | .execErr _ m => m
  | .typeErrorUndefined f => "Cannot read properties of undefined (reading \x27" ++ f ++ "\x27)"
  | .translationFailed inner => "Translation failed: " ++ inner.message

/-- Body of a LibreTranslate JSON response: the `translatedText` field and
the `error` field, each possibly absent. -/
structure LibreBody where
  translatedText : Option String := none
  errorMsg : Option String := none
deriving DecidableEq, Repr

/-- An HTTP response as `fetch` resolves it: status, status text, and the
JSON body (`none` models a body on which `response.json()` rejects). -/
structure HttpResp where
  status : Nat
  statusText : String
  body : Option LibreBody
deriving DecidableEq, Repr

/-- `response.ok`: status in the 2xx range. -/
def HttpResp.isOkResp (r : HttpResp) : Bool :=
  200 ≤ r.status && r.status < 300

/-- Outcome of a `fetch` call: a resolved response, or a rejected promise. -/
inductive FetchOut where
  | resp (r : HttpResp)
  | reject (msg : String)
deriving DecidableEq, Repr

/-- Outcome of an OpenAI chat-completion call on the text path:
the first choice message content (`none` models an absent or empty,
hence falsy, content), or a rejected promise. -/
inductive ChatOut where
  | content (c : Option String)
  | reject (msg : String)
deriving DecidableEq, Repr

/-- `ImageTranslationResult`: the two-field JSON object the image path parses. -/
structure ImageTranslationResult where
  text : String
  translation : String
deriving DecidableEq, Repr

/-- Outcome of an OpenAI chat-completion call on the image path: the outer
`Option` is content presence and truthiness, the inner `Option` is whether
`JSON.parse` succeeds on it; or a rejected promise. -/
inductive ChatImageOut where
  | content (c : Option (Option ImageTranslationResult))
  | reject (msg : String)
deriving DecidableEq, Repr

/-- Outcome of `promisify(exec)`: resolved with stdout and stderr, or
rejected (a non-zero exit status or a spawn failure both reject). -/
inductive ExecOut where
  | done (stdout stderr : String)
  | reject (msg : String)
deriving DecidableEq, Repr

/-- Did the exec call succeed? -/
def ExecOut.succeeded : ExecOut → Bool
  | .done _ _ => true
  | .reject _ => false

/-- The environment: the behaviour of every external collaborator during
one invocation.  Oracles that can be hit with different arguments are
functions of those arguments. -/
structure Env where
  healthOut : FetchOut
  translateOut : FetchOut
  chatOut : ChatOut
  chatImageOut : ChatImageOut
  execOut : Cmd → ExecOut
  clipTextOut : Except String String
  clipImageOut : Except String Nat
  clipWriteOut : String → Except String Unit
  pngFileExists : Bool
  pngReadOut : Except String String
  pngUnlinkOut : Except String Unit
  now : Nat
  alfredVar : Bool

/-- `path.join(process.cwd(), ...)` target for the staged clipboard image. -/
def TMP_IMAGE_PATH : String := "tmp_clipboard.png"

/-- `BaseTranslationProvider.playSound`: one `afplay` subprocess call whose
failure is caught and only warned about — the function never raises. -/
def playSound (env : Env) (sound : String) : List Eff :=
  [Eff.run (Cmd.afplay sound) (env.execOut (Cmd.afplay sound)).succeeded]

/-- `LibreTranslateProvider.checkHealth`: fetch `baseUrl/languages` with no
request options (in particular no timeout); a rejected fetch is caught and
reported as unhealthy, otherwise the result is `response.ok`. -/
def LibreTranslateProvider.checkHealth (env : Env) (pcfg : ProviderConfig) :
    Bool × List Eff :=
  let eff := Eff.fetchGet (pcfg.baseUrl ++ "/languages") none
  match env.healthOut with
  | .resp r => (r.isOkResp, [eff])
  | .reject _ => (false, [eff])

/-- JavaScript truthiness of `this.config.apiKey`, which decides whether the
Authorization header is spread into the translate request. -/
def apiKeyTruthy (pcfg : ProviderConfig) : Bool :=
  match pcfg.apiKey with
  | some s => s ≠ ""
  | none => false

/-- The `errorData.error` fragment of the non-2xx error message:
`response.json().catch` yields an empty object when the body is unparseable,
and the field is only appended when truthy (present and non-empty). -/
def normErrField : Option LibreBody → Option String
  | some b =>
    (match b.errorMsg with
     | some s => if s = "" then none else some s
     | none => none)
  | none => none

/-- `LibreTranslateProvider.translate`: health probe first; on an unhealthy
service play the failure sound and throw; otherwise POST `/translate` with
body fields `q`, `source` (auto), `target`, `format` (text); a non-2xx
response throws the API error built from the status text and the optional
body error field; a missing or empty (falsy) `translatedText` throws; the
surrounding catch wraps every raised error in the translation-failed
wrapper. -/
def LibreTranslateProvider.translate (env : Env) (pcfg : ProviderConfig)
    (text targetLanguage : String) : Except Err String × List Eff :=
  let h := LibreTranslateProvider.checkHealth env pcfg
  if h.1 then
    let eff := Eff.fetchPost (pcfg.baseUrl ++ "/translate") (apiKeyTruthy pcfg)
      text "auto" targetLanguage "text" none
    match env.translateOut with
    | .reject m => (.error (.translationFailed (.fetchReject m)), h.2 ++ [eff])
    | .resp r =>
      if r.isOkResp then
        match r.body with
        | none => (.error (.translationFailed .jsonReject), h.2 ++ [eff])
        | some b =>
          match b.translatedText with
          | none => (.error (.translationFailed .noTranslation), h.2 ++ [eff])
          | some s =>
            if s = "" then (.error (.translationFailed .noTranslation), h.2 ++ [eff])
            else (.ok s, h.2 ++ [eff])
      else
        (.error (.translationFailed (.apiError r.statusText (normErrField r.body))),
         h.2 ++ [eff])
  else
    (.error (.translationFailed .serviceUnavailable), h.2 ++ playSound env "Sosumi")

/-- `OpenAITranslationProvider.translate` (text path): one chat-completion
request carrying the single user message; the trimmed first-choice content
is returned, a falsy (absent or empty after trimming) content throws; there
is no catch, so a rejected client call propagates unwrapped. -/
def OpenAITranslationProvider.translate (env : Env) (pcfg : ProviderConfig)
    (text targetLanguage : String) : Except Err String × List Eff :=
  let eff := Eff.chatText pcfg.model
    ("Translate the following text to [" ++ targetLanguage ++ "]: " ++ text)
  match env.chatOut with
  | .reject m => (.error (.chatReject m), [eff])
  | .content c =>
    match c with
    | none => (.error .noTranslation, [eff])
    | some s =>
      let t := jsTrim s
      if t = "" then (.error .noTranslation, [eff]) else (.ok t, [eff])

/-- `OpenAITranslationProvider.translateImage`: one chat-completion request
carrying the recognition prompt and the image data URI; a falsy content
throws the no-translation error, a content `JSON.parse` cannot handle throws
the parse error, otherwise the parsed two-field result is returned. -/
def OpenAITranslationProvider.translateImage (env : Env) (pcfg : ProviderConfig)
    (imageData targetLanguage : String) :
    Except Err ImageTranslationResult × List Eff :=
  let eff := Eff.chatImage pcfg.model imageData targetLanguage
  match env.chatImageOut with
  | .reject m => (.error (.chatReject m), [eff])
  | .content c =>
    match c with
    | none => (.error .noTranslation, [eff])
    | some po =>
      match po with
      | none => (.error .parseFailed, [eff])
      | some r => (.ok r, [eff])

/-- The argument-template substitution of `LocalTranslationProvider.translate`:
`arg.replace` with a string pattern, so only the first occurrence of each
placeholder is replaced, text first and then target language. -/
def substituteArg (text targetLanguage arg : String) : String :=
  replaceFirst (replaceFirst arg "{text}" text) "{targetLanguage}" targetLanguage

/-- `LocalTranslationProvider.translate`: substitute the placeholders into
the argument template, run the configured command line through the shell,
log (but do not throw) non-empty stderr, and return stdout trimmed; a
rejected exec (non-zero exit status or spawn failure) is wrapped in the
translation-failed error by the catch. -/
def LocalTranslationProvider.translate (env : Env) (pcfg : ProviderConfig)
    (text targetLanguage : String) : Except Err String × List Eff :=
  let line := pcfg.command ++ " " ++
    String.intercalate " " (pcfg.args.map (substituteArg text targetLanguage))
  let c := Cmd.shell line
  match env.execOut c with
  | .done out err =>
    if err = "" then (.ok (jsTrim out), [Eff.run c true])
    else (.ok (jsTrim out), [Eff.run c true, Eff.warnCliStderr pcfg.title err])
  | .reject m => (.error (.translationFailed (.execErr c m)), [Eff.run c false])

/-- `createTranslationProvider` (main script and `translate-buffer.ts`,
which are identical here): look the identifier up in the providers mapping,
throw the not-found error when absent, then switch on the identifier itself,
constructing the OpenAI or LibreTranslate provider and throwing the
unsupported-provider error for any other identifier.  The factory performs
no external call. -/
def createTranslationProvider (cfg : AppConfig) (tc : TranslationConfig) :
    Except Err Provider × List Eff :=
  match List.lookup tc.provider cfg.providers with
  | none => (.error (.providerNotFound tc.provider), [])
  | some p =>
    if tc.provider = "open-ai" then (.ok (.openai p), [])
    else if tc.provider = "libre-translate" then (.ok (.libre p), [])
    else (.error (.unsupportedProvider tc.provider), [])

/-- Method dispatch on the constructed provider. -/
def Provider.translate (env : Env) (p : Provider) (text targetLanguage : String) :
    Except Err String × List Eff :=
  match p with
  | .openai c => OpenAITranslationProvider.translate env c text targetLanguage
  | .libre c => LibreTranslateProvider.translate env c text targetLanguage

/-- The body of `showNotification` as a function of the three exec outcomes:
write the dialog script to the temp file, run `osascript` on it with the
quote-escaped message and title, then `rm` the script file.  Each step is
awaited with no catch, so the first rejection aborts the sequence — in
particular a failing `osascript` skips the `rm`. -/
def showNotificationCore (file emsg etitle : String) (o1 o2 o3 : ExecOut) :
    Except Err Unit × List Eff :=
  let c1 := Cmd.writeDialogScript file
  match o1 with
  | .reject m => (.error (.execErr c1 m), [Eff.run c1 false])
  | .done _ _ =>
    let c2 := Cmd.osascript file emsg etitle
    match o2 with
    | .reject m => (.error (.execErr c2 m), [Eff.run c1 true, Eff.run c2 false])
    | .done _ _ =>
      let c3 := Cmd.rmFile file
      match o3 with
      | .reject m =>
        (.error (.execErr c3 m), [Eff.run c1 true, Eff.run c2 true, Eff.run c3 false])
      | .done _ _ =>
        (.ok (), [Eff.run c1 true, Eff.run c2 true, Eff.run c3 true])

/-- `showNotification`: the script file is named from `Date.now()`. -/
def showNotification (env : Env) (title message : String) :
    Except Err Unit × List Eff :=
  let file := "/tmp/sibilant-dialog-" ++ toString env.now ++ ".scpt"
  showNotificationCore file (escapeQuotes message) (escapeQuotes title)
    (env.execOut (Cmd.writeDialogScript file))
    (env.execOut (Cmd.osascript file (escapeQuotes message) (escapeQuotes title)))
    (env.execOut (Cmd.rmFile file))

/-- `getClipboardImage`: run `pngpaste` into the temp image path, check the
file exists, read it, base64-encode it, delete it, and return the data URI;
every failure is caught and turned into `null`.  Note the `unlinkSync` runs
only after a successful read: a throwing read leaves the staged image on
disk. -/
def getClipboardImage (env : Env) : Option String × List Eff :=
  let c := Cmd.pngpaste TMP_IMAGE_PATH
  match env.execOut c with
  | .reject _ => (none, [Eff.run c false])
  | .done _ _ =>
    if env.pngFileExists then
      match env.pngReadOut with
      | .error _ =>
        (none, [Eff.run c true, Eff.fsExists TMP_IMAGE_PATH true,
                Eff.fsRead TMP_IMAGE_PATH false])
      | .ok b64 =>
        match env.pngUnlinkOut with
        | .error _ =>
          (none, [Eff.run c true, Eff.fsExists TMP_IMAGE_PATH true,
                  Eff.fsRead TMP_IMAGE_PATH true, Eff.fsUnlink TMP_IMAGE_PATH false])
        | .ok _ =>
          (some ("data:image/jpg;base64," ++ b64),
           [Eff.run c true, Eff.fsExists TMP_IMAGE_PATH true,
            Eff.fsRead TMP_IMAGE_PATH true, Eff.fsUnlink TMP_IMAGE_PATH true])
    else (none, [Eff.run c true, Eff.fsExists TMP_IMAGE_PATH false])

/-- The try-block of `translateText` in the main script: resolve the
provider config (logging `provider.title` raises a TypeError when the
identifier is absent), read the clipboard, construct the provider, translate,
write the translation back, and show the success dialog. -/
def translateTextTry (env : Env) (cfg : AppConfig) : Except Err Unit × List Eff :=
  let tc := cfg.translation
  match List.lookup tc.provider cfg.providers with
  | none => (.error (.typeErrorUndefined "title"), [])
  | some _ =>
    match env.clipTextOut with
    | .error m => (.error (.clipReadErr m), [Eff.clipRead])
    | .ok text =>
      match (createTranslationProvider cfg tc).1 with
      | .error e => (.error e, [Eff.clipRead])
      | .ok p =>
        let tr := Provider.translate env p text tc.targetLanguage
        match tr.1 with
        | .error e => (.error e, Eff.clipRead :: tr.2)
        | .ok translation =>
          match env.clipWriteOut translation with
          | .error m =>
            (.error (.clipWriteErr m),
             Eff.clipRead :: (tr.2 ++ [Eff.clipWrite translation]))
          | .ok _ =>
            let n := showNotification env "Translation Complete" translation
            (n.1.map fun _ => (),
             Eff.clipRead :: (tr.2 ++ [Eff.clipWrite translation] ++ n.2))

/-- The shape of the catch blocks of `translateText` and `translateImage`:
on any error the error dialog is shown and the original error rethrown; if
the error dialog itself rejects, that rejection replaces the original error
(the `throw error` line is never reached). -/
def catchNotify (env : Env) (r : Except Err Unit × List Eff) :
    Except Err Unit × List Eff :=
  match r.1 with
  | .ok _ => (.ok (), r.2)
  | .error e =>
    let n := showNotification env "Translation Error" (Err.message e)
    match n.1 with
    | .ok _ => (.error e, r.2 ++ n.2)
    | .error e2 => (.error e2, r.2 ++ n.2)

/-- `translateText` with its catch. -/
def translateText (env : Env) (cfg : AppConfig) : Except Err Unit × List Eff :=
  catchNotify env (translateTextTry env cfg)

/-- The try-block of `translateImage` in the main script: the provider
identifier is checked against `open-ai` before anything else — before the
provider config is touched, before `pngpaste` stages the clipboard image and
before any provider is constructed.  On the OpenAI path the staged image is
sent, the translation written back and the combined dialog shown. -/
def translateImageTry (env : Env) (cfg : AppConfig) : Except Err Unit × List Eff :=
  let tc := cfg.translation
  if tc.provider = "open-ai" then
    match List.lookup tc.provider cfg.providers with
    | none => (.error (.typeErrorUndefined "title"), [])
    | some _ =>
      let gi := getClipboardImage env
      match gi.1 with
      | none => (.error .noImageInClipboard, gi.2)
      | some imageData =>
        match (createTranslationProvider cfg tc).1 with
        | .error e => (.error e, gi.2)
        | .ok p =>
          let ti := OpenAITranslationProvider.translateImage env p.cfgOf
            imageData tc.targetLanguage
          match ti.1 with
          | .error e => (.error e, gi.2 ++ ti.2)
          | .ok result =>
            match env.clipWriteOut result.translation with
            | .error m =>
              (.error (.clipWriteErr m),
               gi.2 ++ ti.2 ++ [Eff.clipWrite result.translation])
            | .ok _ =>
              let n := showNotification env "Image Translation Complete"
                ("Original: " ++ result.text ++ "\n\nTranslation: " ++ result.translation)
              (n.1.map fun _ => (),
               gi.2 ++ ti.2 ++ [Eff.clipWrite result.translation] ++ n.2)
  else (.error .capabilityUnsupported, [])

/-- `translateImage` with its catch (same shape as the `translateText` catch). -/
def translateImage (env : Env) (cfg : AppConfig) : Except Err Unit × List Eff :=
  catchNotify env (translateImageTry env cfg)

/-- Clipboard content classification. -/
inductive ContentType where
  | text
  | image
  | unknown
deriving DecidableEq, Repr

/-- The text fallback of `detectClipboardContent`: read the clipboard and
classify as text only when the content is truthy and its trim is non-empty;
a throwing read is caught and classified as unknown. -/
def detectTextBranch (env : Env) : ContentType × List Eff :=
  match env.clipTextOut with
  | .ok content =>
    if content ≠ "" ∧ (jsTrim content).length > 0 then
      (.text, [Eff.clipGetImage, Eff.clipRead])
    else (.unknown, [Eff.clipGetImage, Eff.clipRead])
  | .error _ => (.unknown, [Eff.clipGetImage, Eff.clipRead])

/-- `detectClipboardContent`: probe the native clipboard for image data
first (a throwing probe falls through to the text check), classify as image
on a non-empty buffer, otherwise fall back to the text check. -/
def detectClipboardContent (env : Env) : ContentType × List Eff :=
  match env.clipImageOut with
  | .ok n => if n > 0 then (.image, [Eff.clipGetImage]) else detectTextBranch env
  | .error _ => detectTextBranch env

/-- The try-block of `main`: detect the content type, emit the Alfred
control JSON when running under Alfred, then dispatch to the text or image
pipeline; unknown content throws. -/
def mainTry (env : Env) (cfg : AppConfig) : Except Err Unit × List Eff :=
  let d := detectClipboardContent env
  let aeffs := if env.alfredVar
    then [Eff.alfredLog (decide (d.1 = ContentType.text))] else []
  match d.1 with
  | .text =>
    let t := translateText env cfg
    (t.1, d.2 ++ aeffs ++ t.2)
  | .image =>
    let t := translateImage env cfg
    (t.1, d.2 ++ aeffs ++ t.2)
  | .unknown => (.error .unsupportedContent, d.2 ++ aeffs)

/-- The catch block of `main`: any error from the pipeline is logged and
the error dialog shown; the error is **not** rethrown, so `main` resolves
normally afterwards — but the awaited `showNotification` in the catch has no
guard of its own, so its rejection escapes `main` as an unhandled rejection. -/
def mainCatch (env : Env) (r : Except Err Unit × List Eff) :
    Except Err Unit × List Eff :=
  match r.1 with
  | .ok _ => (.ok (), r.2)
  | .error e =>
    let n := showNotification env "Translation Error" (Err.message e)
    match n.1 with
    | .ok _ => (.ok (), r.2 ++ n.2)
    | .error e2 => (.error e2, r.2 ++ n.2)

/-- `main`: the pipeline wrapped in its error-swallowing catch. -/
def main (env : Env) (cfg : AppConfig) : Except Err Unit × List Eff :=
  mainCatch env (mainTry env cfg)

/-- The process outcome of one invocation: the script calls `main()` at top
level with no exit-code handling, so the process exits 0 when the `main`
promise resolves and non-zero (unhandled rejection) when it rejects. -/
def mainExitCode (env : Env) (cfg : AppConfig) : Nat :=
  match (main env cfg).1 with
  | .ok _ => 0
  | .error _ => 1

/-- Is this effect a translation request to a backend (HTTP translate call,
chat-completion call, or local translator subprocess)? -/
def isTranslateCall : Eff → Bool
  | .fetchPost _ _ _ _ _ _ _ => true
  | .chatText _ _ => true
  | .chatImage _ _ _ => true
  | .run (Cmd.shell _) _ => true
  | _ => false

/-- Number of backend translation calls in a trace. -/
def translateCallCount (tr : List Eff) : Nat := tr.countP isTranslateCall

/-- Number of health-probe calls (GET requests) in a trace. -/
def healthCallCount (tr : List Eff) : Nat :=
  tr.countP fun e => match e with | .fetchGet _ _ => true | _ => false

/-- Number of clipboard writes in a trace. -/
def clipWriteCount (tr : List Eff) : Nat :=
  tr.countP fun e => match e with | .clipWrite _ => true | _ => false

/-- Number of user-notification attempts in a trace (every
`showNotification` invocation starts by writing its dialog script). -/
def notifyAttemptCount (tr : List Eff) : Nat :=
  tr.countP fun e => match e with
    | .run (Cmd.writeDialogScript _) _ => true
    | _ => false

/-- Does any health probe in the trace carry an explicit timeout? -/
def probeHasTimeout (tr : List Eff) : Bool :=
  tr.any fun e => match e with
    | .fetchGet _ (some _) => true
    | _ => false

/-- Is the file `f` removed (successful `rm` subprocess or successful
`unlinkSync`) somewhere in the rest of the trace? -/
def removedLater (f : String) : List Eff → Bool
  | [] => false
  | e :: rest =>
    (match e with
     | .run (Cmd.rmFile g) true => f = g
     | .fsUnlink g true => f = g
     | _ => false) || removedLater f rest

/-- The temporary artifacts still on disk at the end of a trace: files
created (dialog script written, clipboard image staged by a successful
`pngpaste`) with no later successful removal. -/
def leakedTempFiles : List Eff → List String
  | [] => []
  | e :: rest =>
    (match e with
     | .run (Cmd.writeDialogScript f) true =>
       if removedLater f rest then [] else [f]
     | .run (Cmd.pngpaste p) true =>
       if removedLater p rest then [] else [p]
     | _ => []) ++ leakedTempFiles rest

/-- No usable image in the clipboard: the native probe throws or returns an
empty buffer. -/
def noImageAvailable (env : Env) : Prop :=
  ∀ n, env.clipImageOut = .ok n → n = 0

/-! Concrete provider configurations and environments used to instantiate
the theorems. -/

/-- A LibreTranslate provider configuration. -/
def ltCfg : ProviderConfig :=
  { title := "LibreTranslate", baseUrl := "http://localhost:9012" }

/-- An OpenAI provider configuration. -/
def oaCfg : ProviderConfig :=
  { title := "OpenAI", apiKey := some "sk-test", model := "gpt-4o" }

/-- A local-command provider configuration with the template from the spec
scenario. -/
def localCfg : ProviderConfig :=
  { title := "LocalCLI", command := "trans-shell",
    args := ["--to", "{targetLanguage}", "{text}"] }

/-- App config selecting the self-hosted provider. -/
def cfgLibre : AppConfig :=
  { providers := [("open-ai", oaCfg), ("libre-translate", ltCfg)],
    translation := { provider := "libre-translate", targetLanguage := "en" } }

/-- App config selecting the cloud provider. -/
def cfgOpenai : AppConfig :=
  { providers := [("open-ai", oaCfg), ("libre-translate", ltCfg)],
    translation := { provider := "open-ai", targetLanguage := "en" } }

/-- App config whose active identifier is present but not one the factory
can construct. -/
def cfgUnknownProv : AppConfig :=
  { providers := [("my-prov", ltCfg)],
    translation := { provider := "my-prov", targetLanguage := "en" } }

/-- App config whose active identifier is absent from the mapping. -/
def cfgAbsent : AppConfig :=
  { providers := [("open-ai", oaCfg)],
    translation := { provider := "ghost", targetLanguage := "en" } }

/-- Subprocess oracle on which every command succeeds with empty output. -/
def execAllOk : Cmd → ExecOut := fun _ => .done "" ""

/-- A benign environment: healthy service, well-formed responses, text in
the clipboard, every subprocess succeeding. -/
def envBase : Env :=
  { healthOut := .resp { status := 200, statusText := "OK",
                         body := some { translatedText := some "hallo" } }
    translateOut := .resp { status := 200, statusText := "OK",
                            body := some { translatedText := some "hallo" } }
    chatOut := .content (some "Hello")
    chatImageOut := .content (some (some { text := "orig", translation := "trans" }))
    execOut := execAllOk
    clipTextOut := .ok "hi"
    clipImageOut := .error "no image"
    clipWriteOut := fun _ => .ok ()
    pngFileExists := true
    pngReadOut := .ok "QUJD"
    pngUnlinkOut := .ok ()
    now := 0
    alfredVar := false }

/-- Environment whose clipboard holds only whitespace text and no image. -/
def envEmptyClip : Env := { envBase with clipTextOut := .ok "  " }

/-- Environment where the `osascript` dialog command fails (for example the
dialog is dismissed with an error) while everything else succeeds. -/
def envOsaFail : Env :=
  { envEmptyClip with
    execOut := fun c => match c with
      | Cmd.osascript _ _ _ => .reject "osascript exited with code 1"
      | _ => .done "" "" }

/-- Environment where the self-hosted service is unreachable. -/
def envHealthDown : Env := { envBase with healthOut := .reject "ECONNREFUSED" }

/-- Environment whose translate endpoint answers 2xx with an empty
`translatedText` field. -/
def envEmptyTranslated : Env :=
  { envBase with
    translateOut := .resp { status := 200, statusText := "OK",
                            body := some { translatedText := some "" } } }

/-- Environment with image bytes on the clipboard. -/
def envImage : Env := { envBase with clipImageOut := .ok 42 }

/-- Environment where the local translator prints `Bonjour` on stdout. -/
def envLocalBonjour : Env :=
  { envBase with
    execOut := fun c => match c with
      | Cmd.shell _ => .done "Bonjour" ""
      | _ => .done "" "" }

/-! Helper lemmas. -/

/-- The health check performs exactly its one GET, whatever the outcome. -/
theorem checkHealth_trace (env : Env) (pcfg : ProviderConfig) :
    (LibreTranslateProvider.checkHealth env pcfg).2 =
      [Eff.fetchGet (pcfg.baseUrl ++ "/languages") none] := by
  unfold LibreTranslateProvider.checkHealth
  cases env.healthOut <;> simp

/-- The capability check of the image pipeline fires before anything else:
a non-OpenAI provider identifier yields the capability error with an empty
effect trace. -/
theorem translateImageTry_not_openai (env : Env) (cfg : AppConfig)
    (h : cfg.translation.provider ≠ "open-ai") :
    translateImageTry env cfg = (.error .capabilityUnsupported, []) := by
  unfold translateImageTry
  simp [h]

/-- `showNotificationCore` trace shape: it never writes the clipboard,
never issues a backend translation call, and makes exactly one
notification attempt. -/
theorem showNotificationCore_counts (file emsg etitle : String)
    (o1 o2 o3 : ExecOut) :
    clipWriteCount (showNotificationCore file emsg etitle o1 o2 o3).2 = 0 ∧
    translateCallCount (showNotificationCore file emsg etitle o1 o2 o3).2 = 0 ∧
    notifyAttemptCount (showNotificationCore file emsg etitle o1 o2 o3).2 = 1 := by
  cases o1 <;> cases o2 <;> cases o3 <;>
    simp [showNotificationCore, clipWriteCount, translateCallCount,
      notifyAttemptCount, isTranslateCall, List.countP_cons, List.countP_nil]

/-- `showNotification` never writes the clipboard. -/
theorem showNotification_clipWrite (env : Env) (t m : String) :
    clipWriteCount (showNotification env t m).2 = 0 := by
  unfold showNotification
  exact (showNotificationCore_counts _ _ _ _ _ _).1

/-- `showNotification` issues no backend translation call. -/
theorem showNotification_translateCalls (env : Env) (t m : String) :
    translateCallCount (showNotification env t m).2 = 0 := by
  unfold showNotification
  exact (showNotificationCore_counts _ _ _ _ _ _).2.1

/-- `showNotification` makes exactly one notification attempt. -/
theorem showNotification_attempts (env : Env) (t m : String) :
    notifyAttemptCount (showNotification env t m).2 = 1 := by
  unfold showNotification
  exact (showNotificationCore_counts _ _ _ _ _ _).2.2

/-- The text fallback of detection always performs the image probe followed
by the clipboard read. -/
theorem detectTextBranch_trace (env : Env) :
    (detectTextBranch env).2 = [Eff.clipGetImage, Eff.clipRead] := by
  unfold detectTextBranch
  cases env.clipTextOut with
  | ok c => by_cases h : c ≠ "" ∧ (jsTrim c).length > 0 <;> simp [h]
  | error m => rfl

/-- Content detection performs the image probe, optionally followed by the
clipboard read, and nothing else. -/
theorem detect_trace (env : Env) :
    (detectClipboardContent env).2 = [Eff.clipGetImage] ∨
    (detectClipboardContent env).2 = [Eff.clipGetImage, Eff.clipRead] := by
  unfold detectClipboardContent
  cases env.clipImageOut with
  | ok n =>
    by_cases h : n > 0
    · left; simp [h]
    · right; simp [h, detectTextBranch_trace]
  | error m => right; simp [detectTextBranch_trace]

/-- Content detection only touches the clipboard: no clipboard writes and
no backend calls appear in its trace. -/
theorem detect_counts (env : Env) :
    clipWriteCount (detectClipboardContent env).2 = 0 ∧
    translateCallCount (detectClipboardContent env).2 = 0 := by
  rcases detect_trace env with h | h <;> rw [h] <;> exact ⟨by decide, by decide⟩

/-- With a passing health probe, the self-hosted translate performs exactly
the GET probe followed by the POST translate request, whatever the
response. -/
theorem libre_trace_healthy (env : Env) (pcfg : ProviderConfig)
    (text lang : String)
    (hh : (LibreTranslateProvider.checkHealth env pcfg).1 = true) :
    (LibreTranslateProvider.translate env pcfg text lang).2 =
      [Eff.fetchGet (pcfg.baseUrl ++ "/languages") none,
       Eff.fetchPost (pcfg.baseUrl ++ "/translate") (apiKeyTruthy pcfg)
         text "auto" lang "text" none] := by
  have htr := checkHealth_trace env pcfg
  simp only [LibreTranslateProvider.translate, hh, if_true, htr]
  cases henv : env.translateOut with
  | resp r =>
    by_cases hok : r.isOkResp = true
    · cases hb : r.body with
      | none => simp [hok, hb]
      | some b =>
        cases ht : b.translatedText with
        | none => simp [hok, hb, ht]
        | some s => by_cases hs : s = "" <;> simp [hok, hb, ht, hs]
    · simp [hok]
  | reject m => simp

/-- The self-hosted translate never returns the empty string: an empty
`translatedText` is rejected as falsy. -/
theorem libre_ok_nonempty (env : Env) (pcfg : ProviderConfig)
    (text lang : String) :
    ∀ s, (LibreTranslateProvider.translate env pcfg text lang).1 = .ok s →
      s ≠ "" := by
  cases hh : (LibreTranslateProvider.checkHealth env pcfg).1 with
  | false => simp [LibreTranslateProvider.translate, hh]
  | true =>
    simp only [LibreTranslateProvider.translate, hh, if_true]
    cases henv : env.translateOut with
    | reject m => simp
    | resp r =>
      by_cases hok : r.isOkResp = true
      · cases hb : r.body with
        | none => simp [hok, hb]
        | some b =>
          cases ht : b.translatedText with
          | none => simp [hok, hb, ht]
          | some s =>
            by_cases hs : s = ""
            · simp [hok, hb, ht, hs]
            · simp only [hok, if_true, hb, ht, if_neg hs]
              intro s' hs'
              injection hs' with h2
              subst h2
              exact hs
      · simp [hok]

/-- The cloud translate issues exactly one chat-completion call and never
returns the empty string (an empty or missing content is rejected). -/
theorem openai_one_call_nonempty (env : Env) (pcfg : ProviderConfig)
    (text lang : String) :
    translateCallCount (OpenAITranslationProvider.translate env pcfg text lang).2 = 1 ∧
    ∀ s, (OpenAITranslationProvider.translate env pcfg text lang).1 = .ok s →
      s ≠ "" := by
  simp only [OpenAITranslationProvider.translate]
  cases env.chatOut with
  | reject m =>
    simp [translateCallCount, isTranslateCall, List.countP_cons, List.countP_nil]
  | content c =>
    cases c with
    | none =>
      simp [translateCallCount, isTranslateCall, List.countP_cons, List.countP_nil]
    | some s =>
      by_cases h : jsTrim s = ""
      · simp [h, translateCallCount, isTranslateCall, List.countP_cons,
          List.countP_nil]
      · simp only [if_neg h]
        refine ⟨by simp [translateCallCount, isTranslateCall, List.countP_cons,
          List.countP_nil], ?_⟩
        intro s' hs'
        injection hs' with h2
        subst h2
        exact h

/-- Clipboard-write counting distributes over trace concatenation. -/
theorem clipWriteCount_append (l1 l2 : List Eff) :
    clipWriteCount (l1 ++ l2) = clipWriteCount l1 + clipWriteCount l2 := by
  simp [clipWriteCount, List.countP_append]

/-- Backend-call counting distributes over trace concatenation. -/
theorem translateCallCount_append (l1 l2 : List Eff) :
    translateCallCount (l1 ++ l2) = translateCallCount l1 + translateCallCount l2 := by
  simp [translateCallCount, List.countP_append]

/-- Notification-attempt counting distributes over trace concatenation. -/
theorem notifyAttemptCount_append (l1 l2 : List Eff) :
    notifyAttemptCount (l1 ++ l2) = notifyAttemptCount l1 + notifyAttemptCount l2 := by
  simp [notifyAttemptCount, List.countP_append]

/-- The optional Alfred control output contributes no clipboard write and
no backend call. -/
theorem alfred_counts (b c : Bool) :
    clipWriteCount (if b then [Eff.alfredLog c] else []) = 0 ∧
    translateCallCount (if b then [Eff.alfredLog c] else []) = 0 := by
  cases b <;>
    simp [clipWriteCount, translateCallCount, isTranslateCall,
      List.countP_cons, List.countP_nil]

/-- The rethrowing catch wrapper only appends notification effects: it
changes neither the clipboard-write count nor the backend-call count. -/
theorem catchNotify_counts (env : Env) (r : Except Err Unit × List Eff) :
    clipWriteCount (catchNotify env r).2 = clipWriteCount r.2 ∧
    translateCallCount (catchNotify env r).2 = translateCallCount r.2 := by
  unfold catchNotify
  cases hr : r.1 with
  | ok u => exact ⟨rfl, rfl⟩
  | error e =>
    have h1 := showNotification_clipWrite env "Translation Error" (Err.message e)
    have h2 := showNotification_translateCalls env "Translation Error" (Err.message e)
    cases hn : (showNotification env "Translation Error" (Err.message e)).1 <;>
      simp [hn, clipWriteCount_append, translateCallCount_append, h1, h2]

/-- The swallowing catch wrapper of `main` likewise only appends
notification effects. -/
theorem mainCatch_counts (env : Env) (r : Except Err Unit × List Eff) :
    clipWriteCount (mainCatch env r).2 = clipWriteCount r.2 ∧
    translateCallCount (mainCatch env r).2 = translateCallCount r.2 := by
  unfold mainCatch
  cases hr : r.1 with
  | ok u => exact ⟨rfl, rfl⟩
  | error e =>
    have h1 := showNotification_clipWrite env "Translation Error" (Err.message e)
    have h2 := showNotification_translateCalls env "Translation Error" (Err.message e)
    cases hn : (showNotification env "Translation Error" (Err.message e)).1 <;>
      simp [hn, clipWriteCount_append, translateCallCount_append, h1, h2]

/-- The local-command translate issues exactly one subprocess call. -/
theorem local_one_call (env : Env) (pcfg : ProviderConfig)
    (text lang : String) :
    translateCallCount (LocalTranslationProvider.translate env pcfg text lang).2 = 1 := by
  simp only [LocalTranslationProvider.translate]
  cases env.execOut (Cmd.shell (pcfg.command ++ " " ++
      String.intercalate " " (pcfg.args.map (substituteArg text lang)))) with
  | done out err =>
    by_cases he : err = "" <;>
      simp [he, translateCallCount, isTranslateCall, List.countP_cons,
        List.countP_nil]
  | reject m =>
    simp [translateCallCount, isTranslateCall, List.countP_cons, List.countP_nil]

/-! Claim theorems. -/

/-- C5: for every provider identifier and configuration mapping, the factory
returns the constructed provider when the identifier is one of the kinds it
knows (`open-ai`, `libre-translate`); it fails with the provider-not-found
error when the identifier is absent from the configuration, and with the
unsupported-provider error when the identifier is present but not one it can
construct.  In every case its effect trace is empty: no network or process
call is made. -/
theorem factory_selection_spec (cfg : AppConfig) (tc : TranslationConfig) :
    (List.lookup tc.provider cfg.providers = none →
      createTranslationProvider cfg tc = (.error (.providerNotFound tc.provider), [])) ∧
    (∀ p, List.lookup tc.provider cfg.providers = some p →
      (tc.provider = "open-ai" →
        createTranslationProvider cfg tc = (.ok (.openai p), [])) ∧
      (tc.provider = "libre-translate" →
        createTranslationProvider cfg tc = (.ok (.libre p), [])) ∧
      (tc.provider ≠ "open-ai" → tc.provider ≠ "libre-translate" →
        createTranslationProvider cfg tc =
          (.error (.unsupportedProvider tc.provider), []))) := by
  refine ⟨fun h => ?_, fun p hp => ⟨fun he => ?_, fun he => ?_, fun h1 h2 => ?_⟩⟩
  · simp [createTranslationProvider, h]
  · rw [he] at hp; simp [createTranslationProvider, he, hp]
  · rw [he] at hp; simp [createTranslationProvider, he, hp]
  · simp [createTranslationProvider, hp, h1, h2]

/-- C5 witness: at concrete configurations, the factory constructs the
LibreTranslate provider for a present known identifier, fails with
provider-not-found for an absent identifier, and fails with
unsupported-provider for a present unknown identifier — each with an empty
effect trace. -/
theorem factory_selection_spec_witness :
    createTranslationProvider cfgLibre cfgLibre.translation = (.ok (.libre ltCfg), []) ∧
    createTranslationProvider cfgAbsent cfgAbsent.translation =
      (.error (.providerNotFound "ghost"), []) ∧
    createTranslationProvider cfgUnknownProv cfgUnknownProv.translation =
      (.error (.unsupportedProvider "my-prov"), []) :=
  ⟨((factory_selection_spec cfgLibre cfgLibre.translation).2 ltCfg (by decide)).2.1 rfl,
   (factory_selection_spec cfgAbsent cfgAbsent.translation).1 (by decide),
   (((factory_selection_spec cfgUnknownProv cfgUnknownProv.translation).2 ltCfg
      (by decide)).2.2) (by decide) (by decide)⟩

/-- C3: when image translation is requested and the configured provider is
not the cloud (OpenAI) one — the only provider implementing the image
contract — the pipeline fails with the capability error while its effect
trace is still empty: no network request and no subprocess invocation has
been made. -/
theorem image_capability_gate (env : Env) (cfg : AppConfig)
    (h : cfg.translation.provider ≠ "open-ai") :
    translateImageTry env cfg = (.error .capabilityUnsupported, []) :=
  translateImageTry_not_openai env cfg h

/-- C3 witness: with the self-hosted provider configured, requesting image
translation fails with the capability error and an empty trace. -/
theorem image_capability_gate_witness :
    translateImageTry envImage cfgLibre = (.error .capabilityUnsupported, []) :=
  image_capability_gate envImage cfgLibre (by decide)

/-- C4 counterexample: with the self-hosted service down, the provider does
perform the liveness probe first and fail without a translate call — but
the probe is issued with **no** timeout at all (the fetch carries no request
options), falsifying the claim that the probe runs with a short timeout. -/
theorem libre_probe_no_timeout_example :
    (LibreTranslateProvider.translate envHealthDown ltCfg "hi" "en").2 =
      [Eff.fetchGet "http://localhost:9012/languages" none,
       Eff.run (Cmd.afplay "Sosumi") true] ∧
    probeHasTimeout (LibreTranslateProvider.translate envHealthDown ltCfg "hi" "en").2
      = false := by
  exact ⟨by decide, by decide⟩

/-- C4 (amended: the probe carries no explicit timeout, and the failure is
surfaced through the translation-failed wrapper of the provider): every call
the self-hosted translate performs the liveness probe first — the first
effect is the GET on the languages endpoint, issued with no timeout, and no
probe in the trace ever carries one — and whenever the probe fails the call
fails immediately with the service-unavailable error, having made exactly
one health call and zero translate calls. -/
theorem libre_probe_gating (env : Env) (pcfg : ProviderConfig)
    (text lang : String)
    (hh : (LibreTranslateProvider.checkHealth env pcfg).1 = false) :
    (LibreTranslateProvider.translate env pcfg text lang).2.head? =
      some (Eff.fetchGet (pcfg.baseUrl ++ "/languages") none) ∧
    probeHasTimeout (LibreTranslateProvider.translate env pcfg text lang).2 = false ∧
    (LibreTranslateProvider.translate env pcfg text lang).1 =
      .error (.translationFailed .serviceUnavailable) ∧
    healthCallCount (LibreTranslateProvider.translate env pcfg text lang).2 = 1 ∧
    translateCallCount (LibreTranslateProvider.translate env pcfg text lang).2 = 0 := by
  have htr := checkHealth_trace env pcfg
  simp only [LibreTranslateProvider.translate, hh, Bool.false_eq_true, if_false, htr]
  unfold playSound
  refine ⟨?_, ?_, ?_, ?_, ?_⟩ <;>
    simp [probeHasTimeout, healthCallCount, translateCallCount, isTranslateCall]

/-- C4 witness: the amended statement applied to the concrete dead-service
environment. -/
theorem libre_probe_gating_witness :
    (LibreTranslateProvider.checkHealth envHealthDown ltCfg).1 = false ∧
    ((LibreTranslateProvider.translate envHealthDown ltCfg "hola" "en").1 =
       .error (.translationFailed .serviceUnavailable) ∧
     healthCallCount (LibreTranslateProvider.translate envHealthDown ltCfg "hola" "en").2 = 1 ∧
     translateCallCount (LibreTranslateProvider.translate envHealthDown ltCfg "hola" "en").2 = 0) :=
  ⟨by decide,
   (libre_probe_gating envHealthDown ltCfg "hola" "en" (by decide)).2.2⟩

/-- C7 counterexample: a 2xx response whose `translatedText` field is
present but empty is **not** returned — the falsy-field check rejects it
with the no-translation error — falsifying the claim that in the non-error
cases the `translatedText` value is returned. -/
theorem libre_empty_translated_text_rejected :
    (LibreTranslateProvider.translate envEmptyTranslated ltCfg "hi" "de").1 =
      .error (.translationFailed .noTranslation) ∧
    (LibreTranslateProvider.translate envEmptyTranslated ltCfg "hi" "de").1 ≠
      .ok "" := by
  exact ⟨by decide, by decide⟩

/-- C7 (amended: a 2xx response whose `translatedText` field is absent *or
empty* fails with the malformed-response error; only a non-empty value is
returned; errors are surfaced through the translation-failed
wrapper): after a passing health probe the provider issues exactly
`POST baseUrl/translate` with body fields `q` = text, `source` = auto,
`target` = target language, `format` = text; a non-2xx response fails with
the API error carrying the upstream status text and, when present and
non-empty, the structured `error` message of the body; a 2xx response with
a parseable body returns the `translatedText` value when it is non-empty
and fails with the no-translation error when the field is absent or empty. -/
theorem libre_wire_contract (env : Env) (pcfg : ProviderConfig)
    (text lang : String)
    (hh : (LibreTranslateProvider.checkHealth env pcfg).1 = true) :
    (LibreTranslateProvider.translate env pcfg text lang).2 =
      [Eff.fetchGet (pcfg.baseUrl ++ "/languages") none,
       Eff.fetchPost (pcfg.baseUrl ++ "/translate") (apiKeyTruthy pcfg)
         text "auto" lang "text" none] ∧
    (∀ r, env.translateOut = .resp r →
      (r.isOkResp = false →
        (LibreTranslateProvider.translate env pcfg text lang).1 =
          .error (.translationFailed (.apiError r.statusText (normErrField r.body)))) ∧
      (r.isOkResp = true → ∀ b, r.body = some b →
        ((b.translatedText = none ∨ b.translatedText = some "") →
          (LibreTranslateProvider.translate env pcfg text lang).1 =
            .error (.translationFailed .noTranslation)) ∧
        (∀ s, b.translatedText = some s → s ≠ "" →
          (LibreTranslateProvider.translate env pcfg text lang).1 = .ok s))) := by
  refine ⟨libre_trace_healthy env pcfg text lang hh, ?_⟩
  have htr := checkHealth_trace env pcfg
  simp only [LibreTranslateProvider.translate, hh, if_true, htr]
  intro r hr
  simp only [hr]
  refine ⟨fun hok => ?_, fun hok b hb => ⟨fun hempty => ?_, fun s ht hs => ?_⟩⟩
  · simp [hok]
  · rcases hempty with ht | ht <;> simp [hok, hb, ht]
  · simp [hok, hb, ht, hs]

/-- C7 witness: the amended statement applied to a healthy service whose
translate endpoint returns a well-formed non-empty translation. -/
theorem libre_wire_contract_witness :
    (LibreTranslateProvider.checkHealth envBase ltCfg).1 = true ∧
    (LibreTranslateProvider.translate envBase ltCfg "hi" "en").2 =
      [Eff.fetchGet "http://localhost:9012/languages" none,
       Eff.fetchPost "http://localhost:9012/translate" false "hi" "auto" "en" "text" none] ∧
    (LibreTranslateProvider.translate envBase ltCfg "hi" "en").1 = .ok "hallo" :=
  ⟨by decide,
   (libre_wire_contract envBase ltCfg "hi" "en" (by decide)).1,
   ((((libre_wire_contract envBase ltCfg "hi" "en" (by decide)).2
        { status := 200, statusText := "OK", body := some { translatedText := some "hallo" } }
        rfl).2 (by decide)
        { translatedText := some "hallo" } rfl).2 "hallo" rfl (by decide))⟩

/-- C2 counterexample: the local-command provider, called on the empty
clipboard text with every subprocess succeeding with empty output, issues
exactly one backend call and returns the **empty string** — `stdout.trim()`
is returned with no emptiness check — falsifying the claim that translate
never returns the empty string. -/
theorem local_translate_returns_empty_example :
    (LocalTranslationProvider.translate envBase localCfg "" "fr").1 = .ok "" ∧
    translateCallCount (LocalTranslationProvider.translate envBase localCfg "" "fr").2 = 1 := by
  exact ⟨by decide, by decide⟩

/-- C2 (amended: the cloud and self-hosted providers never return the empty
string — an empty backend result is rejected with an error — while the
local-command provider returns the trimmed stdout, which may be empty):
on an empty-but-present clipboard text, the cloud provider issues exactly
one chat call, the self-hosted provider issues exactly one translate call
once its health probe passes, and the local-command provider issues exactly
one subprocess call; the cloud and self-hosted results, when successful,
are never the empty string, and the local-command result is exactly the
trimmed stdout of its subprocess. -/
theorem empty_text_backend_calls (env : Env) (ocfg lcfg ccfg : ProviderConfig)
    (lang : String) :
    (translateCallCount (OpenAITranslationProvider.translate env ocfg "" lang).2 = 1 ∧
     ∀ s, (OpenAITranslationProvider.translate env ocfg "" lang).1 = .ok s → s ≠ "") ∧
    ((LibreTranslateProvider.checkHealth env lcfg).1 = true →
      translateCallCount (LibreTranslateProvider.translate env lcfg "" lang).2 = 1) ∧
    (∀ s, (LibreTranslateProvider.translate env lcfg "" lang).1 = .ok s → s ≠ "") ∧
    (translateCallCount (LocalTranslationProvider.translate env ccfg "" lang).2 = 1 ∧
     ∀ out err,
       env.execOut (Cmd.shell (ccfg.command ++ " " ++
         String.intercalate " " (ccfg.args.map (substituteArg "" lang)))) =
           .done out err →
       (LocalTranslationProvider.translate env ccfg "" lang).1 = .ok (jsTrim out)) := by
  refine ⟨openai_one_call_nonempty env ocfg "" lang,
    fun hh => ?_, libre_ok_nonempty env lcfg "" lang,
    local_one_call env ccfg "" lang, fun out err hx => ?_⟩
  · rw [libre_trace_healthy env lcfg "" lang hh]
    simp [translateCallCount, isTranslateCall, List.countP_cons, List.countP_nil]
  · simp only [LocalTranslationProvider.translate, hx]
    by_cases he : err = "" <;> simp [he]

/-- C2 witness: the amended statement at concrete configurations; in
particular the healthy self-hosted provider issues exactly one translate
call on empty text. -/
theorem empty_text_backend_calls_witness :
    (LibreTranslateProvider.checkHealth envBase ltCfg).1 = true ∧
    translateCallCount (LibreTranslateProvider.translate envBase ltCfg "" "en").2 = 1 ∧
    translateCallCount (OpenAITranslationProvider.translate envBase oaCfg "" "en").2 = 1 ∧
    translateCallCount (LocalTranslationProvider.translate envBase localCfg "" "en").2 = 1 :=
  ⟨by decide,
   (empty_text_backend_calls envBase oaCfg ltCfg localCfg "en").2.1 (by decide),
   (empty_text_backend_calls envBase oaCfg ltCfg localCfg "en").1.1,
   (empty_text_backend_calls envBase oaCfg ltCfg localCfg "en").2.2.2.1⟩

/-- C8: the local-command provider builds its command line by substituting
the source text and target language into the configured argument template
(first occurrence of each placeholder, text first), invokes the configured
executable through the shell, and on a successful exit returns the captured
stdout trimmed; non-empty stderr adds a logged warning to the trace without
failing the call, and a rejected invocation (non-zero exit status or spawn
error) fails with the wrapped backend error. -/
theorem local_command_contract (env : Env) (pcfg : ProviderConfig)
    (text lang : String) :
    (∀ out err,
      env.execOut (Cmd.shell (pcfg.command ++ " " ++
        String.intercalate " " (pcfg.args.map (substituteArg text lang)))) =
          .done out err →
      (LocalTranslationProvider.translate env pcfg text lang).1 = .ok (jsTrim out) ∧
      (err ≠ "" →
        Eff.warnCliStderr pcfg.title err ∈
          (LocalTranslationProvider.translate env pcfg text lang).2) ∧
      (err = "" →
        (LocalTranslationProvider.translate env pcfg text lang).2 =
          [Eff.run (Cmd.shell (pcfg.command ++ " " ++
            String.intercalate " " (pcfg.args.map (substituteArg text lang)))) true])) ∧
    (∀ m,
      env.execOut (Cmd.shell (pcfg.command ++ " " ++
        String.intercalate " " (pcfg.args.map (substituteArg text lang)))) =
          .reject m →
      (LocalTranslationProvider.translate env pcfg text lang).1 =
        .error (.translationFailed (.execErr (Cmd.shell (pcfg.command ++ " " ++
          String.intercalate " " (pcfg.args.map (substituteArg text lang)))) m))) := by
  constructor
  · intro out err hx
    simp only [LocalTranslationProvider.translate, hx]
    by_cases he : err = "" <;> simp [he]
  · intro m hx
    simp only [LocalTranslationProvider.translate, hx]

/-- C8 witness: with the spec-scenario template, target language `fr` and a
command exiting 0 with stdout `Bonjour`, the provider runs the substituted
command line and returns `Bonjour`. -/
theorem local_command_contract_witness :
    envLocalBonjour.execOut (Cmd.shell "trans-shell --to fr Hello") =
      .done "Bonjour" "" ∧
    (LocalTranslationProvider.translate envLocalBonjour localCfg "Hello" "fr").1 =
      .ok "Bonjour" ∧
    (LocalTranslationProvider.translate envLocalBonjour localCfg "Hello" "fr").2 =
      [Eff.run (Cmd.shell "trans-shell --to fr Hello") true] :=
  ⟨by decide,
   by
     have h := ((local_command_contract envLocalBonjour localCfg "Hello" "fr").1
       "Bonjour" "" (by decide))
     exact h.1,
   by
     have h := ((local_command_contract envLocalBonjour localCfg "Hello" "fr").1
       "Bonjour" "" (by decide))
     exact h.2.2 rfl⟩

/-- C9: when the clipboard holds image bytes and the configured provider
does not support the image path, the image pipeline fails with the
capability error and the whole invocation performs no clipboard write —
the clipboard is left unmodified on this failure path. -/
theorem image_capability_failure_no_clip_write (env : Env) (cfg : AppConfig)
    (hp : cfg.translation.provider ≠ "open-ai")
    (hi : (detectClipboardContent env).1 = ContentType.image) :
    (translateImageTry env cfg).1 = .error .capabilityUnsupported ∧
    clipWriteCount (main env cfg).2 = 0 := by
  have h3 := translateImageTry_not_openai env cfg hp
  have hti : clipWriteCount (translateImage env cfg).2 = 0 := by
    simp only [translateImage]
    rw [(catchNotify_counts env (translateImageTry env cfg)).1, h3]
    simp [clipWriteCount]
  refine ⟨by rw [h3], ?_⟩
  simp only [main]
  rw [(mainCatch_counts env (mainTry env cfg)).1]
  simp only [mainTry, hi]
  rw [clipWriteCount_append, clipWriteCount_append, (detect_counts env).1, hti,
    (alfred_counts _ _).1]

/-- C9 witness: image bytes present and the self-hosted (text-only)
provider configured — the pipeline fails with the capability error and the
run performs zero clipboard writes. -/
theorem image_capability_failure_no_clip_write_witness :
    cfgLibre.translation.provider ≠ "open-ai" ∧
    (detectClipboardContent envImage).1 = ContentType.image ∧
    ((translateImageTry envImage cfgLibre).1 = .error .capabilityUnsupported ∧
     clipWriteCount (main envImage cfgLibre).2 = 0) :=
  ⟨by decide, by decide,
   image_capability_failure_no_clip_write envImage cfgLibre (by decide) (by decide)⟩

/-- C10: when the clipboard has no image and its text is empty or
whitespace-only (its trim is empty), detection classifies the content as
unknown, the pipeline fails on the unsupported-content path, and the whole
run makes no backend translation call. -/
theorem whitespace_clipboard_unknown (env : Env) (cfg : AppConfig)
    (hni : noImageAvailable env)
    (s : String) (hs : env.clipTextOut = .ok s) (hw : jsTrim s = "") :
    (detectClipboardContent env).1 = ContentType.unknown ∧
    (mainTry env cfg).1 = .error .unsupportedContent ∧
    translateCallCount (main env cfg).2 = 0 := by
  have htb : detectTextBranch env = (.unknown, [Eff.clipGetImage, Eff.clipRead]) := by
    unfold detectTextBranch
    rw [hs]
    have hcond : ¬(s ≠ "" ∧ (jsTrim s).length > 0) := by
      rintro ⟨h1, h2⟩
      rw [hw] at h2
      simp at h2
    simp [hcond]
  have hdet : detectClipboardContent env =
      (.unknown, [Eff.clipGetImage, Eff.clipRead]) := by
    unfold detectClipboardContent
    cases he : env.clipImageOut with
    | ok n => simp [hni n he, htb]
    | error m => exact htb
  refine ⟨by rw [hdet], ?_, ?_⟩
  · simp [mainTry, hdet]
  · simp only [main]
    rw [(mainCatch_counts env (mainTry env cfg)).2]
    simp only [mainTry, hdet]
    cases env.alfredVar <;>
      simp [translateCallCount_append, translateCallCount, List.countP_cons,
        List.countP_nil, isTranslateCall]

/-- C10 witness: whitespace-only clipboard text and no image — detection
says unknown, the pipeline fails with the unsupported-content error, and no
backend call is made. -/
theorem whitespace_clipboard_unknown_witness :
    (detectClipboardContent envEmptyClip).1 = ContentType.unknown ∧
    (mainTry envEmptyClip cfgLibre).1 = .error .unsupportedContent ∧
    translateCallCount (main envEmptyClip cfgLibre).2 = 0 :=
  whitespace_clipboard_unknown envEmptyClip cfgLibre
    (fun n h => by simp [envEmptyClip, envBase] at h) "  " rfl (by decide)

/-- C1 counterexample: a run in which the translation stage fails (the
self-hosted service is down) and the error notification succeeds resolves
`main` normally and the process exits **zero**, falsifying the claim that
every failing invocation terminates with a non-zero outcome. -/
theorem main_translation_failure_exits_zero :
    (mainTry envHealthDown cfgLibre).1 =
      .error (.translationFailed .serviceUnavailable) ∧
    mainExitCode envHealthDown cfgLibre = 0 := by
  exact ⟨by decide, by decide⟩

/-- C1 (amended: on any stage failure the orchestrator attempts the error
notification, the invocation then terminates with a **zero** outcome when
that notification succeeds — the top-level handler swallows the stage error
— and with a non-zero outcome exactly when the notification itself fails,
its error escaping the handler unlogged): whenever the pipeline fails, the
trace of the run contains a notification attempt and the process exit
status is zero iff the error notification of the top-level catch resolves. -/
theorem main_failure_notifies_exit (env : Env) (cfg : AppConfig) (e : Err)
    (hf : (mainTry env cfg).1 = .error e) :
    1 ≤ notifyAttemptCount (main env cfg).2 ∧
    (mainExitCode env cfg = 0 ↔
      (showNotification env "Translation Error" (Err.message e)).1 = .ok ()) := by
  have hatt := showNotification_attempts env "Translation Error" (Err.message e)
  simp only [mainExitCode, main, mainCatch, hf]
  cases hn : (showNotification env "Translation Error" (Err.message e)).1 with
  | ok u => exact ⟨by simp [notifyAttemptCount_append, hatt], by simp⟩
  | error e2 => exact ⟨by simp [notifyAttemptCount_append, hatt], by simp⟩

/-- C1 witness: the amended statement at the dead-service run — the stage
fails, a notification attempt is present, and the exit status is zero
because the notification succeeds. -/
theorem main_failure_notifies_exit_witness :
    (mainTry envHealthDown cfgLibre).1 =
      .error (.translationFailed .serviceUnavailable) ∧
    (1 ≤ notifyAttemptCount (main envHealthDown cfgLibre).2 ∧
     (mainExitCode envHealthDown cfgLibre = 0 ↔
       (showNotification envHealthDown "Translation Error"
         (Err.message (.translationFailed .serviceUnavailable))).1 = .ok ())) :=
  ⟨by decide,
   main_failure_notifies_exit envHealthDown cfgLibre
     (.translationFailed .serviceUnavailable) (by decide)⟩

/-- C6: concrete failing run for the cleanup claim — when the `osascript`
dialog command fails, `showNotification` aborts before its `rm` step and
the generated dialog script file is left on disk at the end of the
invocation (the claim requires every temporary artifact to be removed on
every exit path). -/
theorem dialog_script_leaked_on_osascript_failure :
    leakedTempFiles (main envOsaFail cfgLibre).2 = ["/tmp/sibilant-dialog-0.scpt"] ∧
    mainExitCode envOsaFail cfgLibre = 1 := by
  exact ⟨by decide, by decide⟩

end Sibilant
